/-
Verification of the Jeeves heatmap renderer (src/index.js) against its
natural-language specification.

The source is a WebGL renderer: `getHeatmap` uploads the scalar grid as an
ALPHA/FLOAT texture, draws a full-screen quad, and the fragment shader reads
the resampled scalar and colors it through a 1-row LUT texture.  The shallow
embedding below translates, over ℚ:

  * the GLES texture sampling semantics the code configures
    (CLAMP_TO_EDGE, MAG_FILTER=LINEAR, MIN_FILTER=NEAREST, pixel-center
    sample positions from the full-screen quad of the vertex shader),
  * the fragment shader body (lines 119-136),
  * the constructor, `lut.onload` handler and `getHeatmap` control flow as an
    explicit state machine.

Reference definitions written from the specification's own words (two-pass
separable resampler, ColorMapper) are named `spec...` and are used only to
compare the code against the spec's contract.
-/
import Mathlib

namespace Jeeves

/-- An RGBA color, channels as rationals in [0,1] (the values `texture2D`
returns for an RGBA/UNSIGNED_BYTE texture are the bytes normalized). -/
structure RGBA where
  r : ℚ
  g : ℚ
  b : ℚ
  a : ℚ
deriving DecidableEq

/-- Zero color, used as the (never reached) list-access default. -/
def rgbaZero : RGBA := ⟨0, 0, 0, 0⟩

/-- Clamp an integer texel index into `[0, n-1]`: the CLAMP_TO_EDGE wrap mode
set on both the heatmap and the LUT texture (src/index.js lines 45-48 and
157-160). -/
def clampIdx (n : Nat) (i : Int) : Nat := (min ((n : Int) - 1) (max 0 i)).toNat

/-- Build a row-major `w × h` grid from a per-pixel function
(index `= x + y·w`). -/
def mkGrid (w h : Nat) (f : Nat → Nat → ℚ) : List ℚ :=
  (List.range (w * h)).map (fun i => f (i % w) (i / w))

/-- Read texel `(x, y)` of a row-major `w × h` scalar texture with
CLAMP_TO_EDGE on both axes. -/
def gridGet (d : List ℚ) (w h : Nat) (x y : Int) : ℚ :=
  d.getD (clampIdx h y * w + clampIdx w x) 0

/-- Texel-space source coordinate of output pixel center `i`: the vertex
shader (lines 102-117) maps the quad so that fragment `i` of an `outN`-wide
output samples the texture at normalized coordinate `(i+0.5)/outN`, which is
texel coordinate `(i+0.5)/outN · dataN - 0.5`. -/
def srcCoord (outN dataN i : Nat) : ℚ :=
  ((i : ℚ) + 1 / 2) / (outN : ℚ) * (dataN : ℚ) - 1 / 2

/-- One 1-D linear filtering tap at texel coordinate `u`: blend of the texels
at `⌊u⌋` and `⌊u⌋ + 1` with weight `u - ⌊u⌋` (GLES LINEAR filtering). -/
def lerpTap (g : Int → ℚ) (u : ℚ) : ℚ :=
  (1 - (u - (⌊u⌋ : ℚ))) * g ⌊u⌋ + (u - (⌊u⌋ : ℚ)) * g (⌊u⌋ + 1)

/-- GLES LINEAR (bilinear) 2-D filtering of a `w × h` texture at texel
coordinates `(u, v)`: a vertical tap whose endpoints are horizontal taps. -/
def texLinear (d : List ℚ) (w h : Nat) (u v : ℚ) : ℚ :=
  lerpTap (fun j => lerpTap (fun i => gridGet d w h i j) u) v

/-- GLES NEAREST 2-D filtering of a `w × h` texture at texel coordinates
`(u, v)`: the texel containing the sample point, `⌊u + 1/2⌋`. -/
def texNearest (d : List ℚ) (w h : Nat) (u v : ℚ) : ℚ :=
  gridGet d w h ⌊u + 1 / 2⌋ ⌊v + 1 / 2⌋

/-- The scalar the fragment shader reads for output pixel `(x, y)`
(`texture2D(heatmap, pos).a`, line 127): the heatmap texture is configured
with MAG_FILTER=LINEAR and MIN_FILTER=NEAREST (lines 161-164), so filtering
is bilinear when the texture is magnified on both axes and nearest-neighbor
otherwise. -/
def sampleHeatmap (data : List ℚ) (dataW dataH outW outH x y : Nat) : ℚ :=
  if dataW ≤ outW ∧ dataH ≤ outH then
    texLinear data dataW dataH (srcCoord outW dataW x) (srcCoord outH dataH y)
  else
    texNearest data dataW dataH (srcCoord outW dataW x) (srcCoord outH dataH y)

/-- The `outW × outH` scalar grid the GPU path resamples the input to: one
`sampleHeatmap` value per output pixel. -/
def resampleGrid (data : List ℚ) (dataW dataH outW outH : Nat) : List ℚ :=
  mkGrid outW outH (fun x y => sampleHeatmap data dataW dataH outW outH x y)

/-- `texture2D(lut, vec2(val, 0.5))` (line 128): the LUT is an `R × 1`
RGBA texture with CLAMP_TO_EDGE and linear magnification filtering
(lines 45-50), so the lookup linearly blends the two texels adjacent to
texel coordinate `val·R - 0.5`, per channel.  Note the shader samples at the
raw scalar `val`: no normalization by `min`/`max` occurs anywhere. -/
def lutSample (lut : List RGBA) (val : ℚ) : RGBA :=
  let u : ℚ := val * (lut.length : ℚ) - 1 / 2
  let f : ℚ := u - (⌊u⌋ : ℚ)
  let c0 : RGBA := lut.getD (clampIdx lut.length ⌊u⌋) rgbaZero
  let c1 : RGBA := lut.getD (clampIdx lut.length (⌊u⌋ + 1)) rgbaZero
  ⟨(1 - f) * c0.r + f * c1.r, (1 - f) * c0.g + f * c1.g,
   (1 - f) * c0.b + f * c1.b, (1 - f) * c0.a + f * c1.a⟩

/-- Pixels produced by one draw call: for each canvas pixel the fragment
shader samples the heatmap and colors the value through the LUT
(lines 119-136 and 149-166). -/
def renderPixels (lut : List RGBA) (outW outH : Nat) (data : List ℚ)
    (dataW dataH : Nat) : List RGBA :=
  (resampleGrid data dataW dataH outW outH).map (lutSample lut)

/-- Construction-time configuration error named by the spec (§7).  The
source never constructs one (it has no throw statement); the type exists so
the constructor's result can be stated as `Except`. -/
inductive ConfigurationError where
  | invalidConfig
deriving DecidableEq

/-- The renderer's mutable state: the fields of `this` (and of `this.lut` and
the GL context) that the constructor, `lut.onload` and `getHeatmap` touch.
`onloadDepth` counts the `getHeatmap` resolvers chained onto `lut.onload`
(lines 171-177); `glTextureCount` counts textures created in the GL context
(the luttexture plus one heatmap texture per resolved call). -/
structure JeevesState where
  canvasWidth : Nat
  canvasHeight : Nat
  min : ℚ
  max : ℚ
  lutLoaded : Bool
  lutData : List RGBA
  onloadDepth : Nat
  glTextureCount : Nat
deriving DecidableEq

/-- State produced by `new Jeeves(width, height, lut, min, max)`
(lines 20-60): GL is initialized, the luttexture created, `lut.onload`
installed (image not yet loaded), and `min`/`max` stored verbatim. -/
def constructState (width height : Nat) (mn mx : ℚ) : JeevesState :=
  { canvasWidth := width
    canvasHeight := height
    min := mn
    max := mx
    lutLoaded := false
    lutData := []
    onloadDepth := 0
    glTextureCount := 1 }

/-- The constructor as a fallible operation.  Its body (lines 20-60) contains
no throw; `console.assert` logs without aborting; so it returns `.ok`
unconditionally — in particular it performs no validation of `min`/`max`. -/
def construct (width height : Nat) (mn mx : ℚ) :
    Except ConfigurationError JeevesState :=
  .ok (constructState width height mn mx)

/-- Observable effect of running the `lut.onload` handler (lines 38-55) on an
image of height `imgHeight` whose decoded pixels are `imgPixels`. -/
structure OnloadEffect where
  state : JeevesState
  assertionPassed : Bool
  uploadedTexture : Bool
  raisedError : Bool
deriving DecidableEq

/-- The `lut.onload` handler: sets `isLoaded`, runs
`console.assert(self.lut.height === 1, "lut height")` — which only logs,
it does not throw — and then unconditionally uploads the image to the
luttexture via `texImage2D` (lines 42-44).  No path raises. -/
def lutOnload (s : JeevesState) (imgHeight : Nat) (imgPixels : List RGBA) :
    OnloadEffect :=
  { state := { s with lutLoaded := true, lutData := imgPixels }
    assertionPassed := imgHeight == 1
    uploadedTexture := true
    raisedError := false }

/-- Synchronous effect of one `getHeatmap` call on the renderer state
(lines 149-180).  If the LUT is loaded the resolver runs at once: it creates
and uploads a fresh heatmap texture and draws.  Otherwise `lut.onload` is
overwritten with a wrapper chaining the old handler and this call's
resolver.  Both branches leave `min`, `max`, the canvas size and the LUT
untouched. -/
def getHeatmapStep (s : JeevesState) : JeevesState :=
  if s.lutLoaded then { s with glTextureCount := s.glTextureCount + 1 }
  else { s with onloadDepth := s.onloadDepth + 1 }

/-- Settlement state of the promise returned by `getHeatmap`. -/
inductive Settlement where
  | fulfilled
  | pending
  | rejected
deriving DecidableEq

/-- Settlement of the promise returned by one `getHeatmap` call, as a
function of the state at call time and of whether the image load event has
fired since.  Translated from the executor (lines 151-179): when
`lut.isLoaded` the resolver (which calls `resolve`) runs synchronously;
otherwise the resolver is chained onto `lut.onload` and runs when the load
event fires.  `reject` is never invoked on any path. -/
def promiseAfter (s : JeevesState) (loadFired : Bool) : Settlement :=
  if s.lutLoaded then .fulfilled
  else if loadFired then .fulfilled
  else .pending

/-- Rendering with the renderer's own state: the draw uses the canvas size
fixed at construction and the LUT texels uploaded by `lut.onload`. -/
def JeevesState.render (s : JeevesState) (data : List ℚ) (dataW dataH : Nat) :
    List RGBA :=
  renderPixels s.lutData s.canvasWidth s.canvasHeight data dataW dataH

/-! ## Reference definitions taken from the specification's words

These are the spec's Resampler and ColorMapper contracts (spec.md §4.2,
§4.3), used to state the refinement claims; they are deliberately written
from the spec, not from the source. -/

/-- Modelled from the spec (§4.2): one 1-D resampling step at source
coordinate `val` over `n` samples: `lower = max(0, floor(val))`,
`upper = min(n-1, ceil(val))`, `f = val - lower`, output
`= g(lower) + f·(g(upper) - g(lower))`. -/
def specSample1 (g : Int → ℚ) (n : Nat) (val : ℚ) : ℚ :=
  g (max 0 ⌊val⌋) +
    (val - ((max 0 ⌊val⌋ : Int) : ℚ)) *
      (g (min ((n : Int) - 1) ⌈val⌉) - g (max 0 ⌊val⌋))

/-- Modelled from the spec (§4.2): pass 1, horizontal — resample each of the
`dataH` rows to `outW` samples at pixel-center positions. -/
def specPass1 (d : List ℚ) (dataW dataH outW : Nat) : List ℚ :=
  mkGrid outW dataH (fun x y =>
    specSample1 (fun i => gridGet d dataW dataH i (y : Int)) dataW
      (srcCoord outW dataW x))

/-- Modelled from the spec (§4.2): pass 2, vertical — identical procedure
along the vertical axis on the `outW × dataH` intermediate grid. -/
def specPass2 (d : List ℚ) (outW dataH outH : Nat) : List ℚ :=
  mkGrid outW outH (fun x y =>
    specSample1 (fun j => gridGet d outW dataH (x : Int) j) dataH
      (srcCoord outH dataH y))

/-- Modelled from the spec (§4.2): the two-pass separable bilinear reference
resampler. -/
def specResample (d : List ℚ) (dataW dataH outW outH : Nat) : List ℚ :=
  specPass2 (specPass1 d dataW dataH outW) outW dataH outH

/-- Modelled from the spec (§4.3): the reference ColorMapper —
`t = (v - domainMin) / (domainMax - domainMin)`, `idx = round(t·(R-1))`
clamped to `[0, R-1]`, output `lut[idx]`. -/
def specColorMap (lut : List RGBA) (mn mx v : ℚ) : RGBA :=
  lut.getD (clampIdx lut.length (round ((v - mn) / (mx - mn) * ((lut.length : ℚ) - 1)))) rgbaZero

/-- Modelled from the spec: the full reference pipeline — two-pass resample
then per-pixel ColorMapper. -/
def specRender (lut : List RGBA) (mn mx : ℚ) (d : List ℚ)
    (dataW dataH outW outH : Nat) : List RGBA :=
  (specResample d dataW dataH outW outH).map (specColorMap lut mn mx)

/-! ## Concrete test fixtures -/

/-- Pure red, as `texture2D` returns it. -/
def cRed : RGBA := ⟨1, 0, 0, 1⟩

/-- Pure green. -/
def cGreen : RGBA := ⟨0, 1, 0, 1⟩

/-- Pure blue. -/
def cBlue : RGBA := ⟨0, 0, 1, 1⟩

/-- A three-entry LUT: red, green, blue. -/
def lut3 : List RGBA := [cRed, cGreen, cBlue]

/-! ## Helper lemmas -/

theorem ceil_as_floor (q : ℚ) : ⌈q⌉ = -⌊-q⌋ := by
  rw [← Int.ceil_neg, neg_neg]

theorem clampIdx_of_nonpos {n : Nat} {i : Int} (h : i ≤ 0) : clampIdx n i = 0 := by
  unfold clampIdx; omega

theorem clampIdx_of_ge {n : Nat} {i : Int} (hn : 0 < n) (h : (n : Int) - 1 ≤ i) :
    clampIdx n i = n - 1 := by
  unfold clampIdx; omega

theorem clampIdx_idem (n : Nat) (i : Int) :
    clampIdx n ((clampIdx n i : Nat) : Int) = clampIdx n i := by
  unfold clampIdx; omega

theorem clampIdx_coe {n x : Nat} (h : x < n) : clampIdx n ((x : Nat) : Int) = x := by
  unfold clampIdx; omega

theorem gridGet_clampX (d : List ℚ) (w h : Nat) (i j : Int) :
    gridGet d w h i j = gridGet d w h ((clampIdx w i : Nat) : Int) j := by
  unfold gridGet; rw [clampIdx_idem]

theorem gridGet_clampY (d : List ℚ) (w h : Nat) (i j : Int) :
    gridGet d w h i j = gridGet d w h i ((clampIdx h j : Nat) : Int) := by
  unfold gridGet; rw [clampIdx_idem]

theorem mkGrid_length (w h : Nat) (f : Nat → Nat → ℚ) :
    (mkGrid w h f).length = w * h := by
  simp [mkGrid]

theorem mkGrid_getElem (w h : Nat) (f : Nat → Nat → ℚ) (m : Nat)
    (hm : m < (mkGrid w h f).length) :
    (mkGrid w h f)[m] = f (m % w) (m / w) := by
  simp [mkGrid]

theorem mkGrid_getD {w h : Nat} (f : Nat → Nat → ℚ) {x y : Nat}
    (hx : x < w) (hy : y < h) :
    (mkGrid w h f).getD (y * w + x) 0 = f x y := by
  have hw : 0 < w := by omega
  have hm : y * w + x < w * h := by
    calc y * w + x < y * w + w := by omega
    _ = (y + 1) * w := by ring
    _ ≤ h * w := Nat.mul_le_mul_right w (by omega)
    _ = w * h := Nat.mul_comm h w
  rw [List.getD_eq_getElem _ _ (by rw [mkGrid_length]; exact hm),
    mkGrid_getElem w h f _ (by rw [mkGrid_length]; exact hm)]
  have hmod : (y * w + x) % w = x := by
    rw [Nat.add_comm, Nat.add_mul_mod_self_right x y w, Nat.mod_eq_of_lt hx]
  have hdiv : (y * w + x) / w = y := by
    rw [Nat.add_comm, Nat.add_mul_div_right x y hw, Nat.div_eq_of_lt hx, Nat.zero_add]
  rw [hmod, hdiv]

theorem mkGrid_congr {w h : Nat} (f f' : Nat → Nat → ℚ)
    (hf : ∀ x y, x < w → y < h → f x y = f' x y) :
    mkGrid w h f = mkGrid w h f' := by
  rcases Nat.eq_zero_or_pos w with hw | hw
  · simp [mkGrid, hw]
  · unfold mkGrid
    apply List.map_congr_left
    intro i hi
    rw [List.mem_range] at hi
    exact hf _ _ (Nat.mod_lt i hw) (Nat.div_lt_of_lt_mul (by omega))

/-- The 1-D equivalence at the heart of the refinement claim: for a clamped
(CLAMP_TO_EDGE) texel access, one hardware LINEAR filtering tap computes the
same value as one step of the spec's resampler formula
(`lower = max(0, floor)`, `upper = min(n-1, ceil)`, `f = val - lower`),
at every coordinate. -/
theorem lerpTap_eq_specSample1 {n : Nat} (hn : 0 < n) (g : Int → ℚ)
    (hg : ∀ i : Int, g i = g ((clampIdx n i : Nat) : Int)) (val : ℚ) :
    lerpTap g val = specSample1 g n val := by
  unfold lerpTap specSample1
  rcases le_or_lt 0 ⌊val⌋ with h0 | hneg
  · rcases le_or_lt ((n : Int) - 1) ⌊val⌋ with hge | hlt
    · -- sample at or beyond the right edge: every access collapses to texel n-1
      have e1 : g ⌊val⌋ = g ((n - 1 : Nat) : Int) := by
        rw [hg ⌊val⌋, clampIdx_of_ge hn hge]
      have e2 : g (⌊val⌋ + 1) = g ((n - 1 : Nat) : Int) := by
        rw [hg (⌊val⌋ + 1), clampIdx_of_ge hn (by omega)]
      have e3 : max 0 ⌊val⌋ = ⌊val⌋ := max_eq_right h0
      have e4 : g (min ((n : Int) - 1) ⌈val⌉) = g ((n - 1 : Nat) : Int) := by
        rw [min_eq_left (le_trans hge (Int.floor_le_ceil val)),
          hg ((n : Int) - 1), clampIdx_of_ge hn (by omega)]
      rw [e3, e1, e2, e4]
      ring
    · -- interior sample
      have e3 : max 0 ⌊val⌋ = ⌊val⌋ := max_eq_right h0
      by_cases hint : ((⌊val⌋ : Int) : ℚ) = val
      · have hceil : ⌈val⌉ = ⌊val⌋ := by
          conv_lhs => rw [← hint]
          exact Int.ceil_intCast _
        have e4 : min ((n : Int) - 1) ⌈val⌉ = ⌊val⌋ := by
          rw [hceil]; exact min_eq_right (by omega)
        have hf : val - ((⌊val⌋ : Int) : ℚ) = 0 := by rw [hint]; ring
        rw [e3, e4, hf]
        ring
      · have h1 : ((⌊val⌋ : Int) : ℚ) < val := lt_of_le_of_ne (Int.floor_le val) hint
        have h2 : ⌊val⌋ < ⌈val⌉ := by exact_mod_cast h1.trans_le (Int.le_ceil val)
        have hceil : ⌈val⌉ = ⌊val⌋ + 1 :=
          le_antisymm (Int.ceil_le_floor_add_one val) (by omega)
        have e4 : min ((n : Int) - 1) ⌈val⌉ = ⌊val⌋ + 1 := by
          rw [hceil]; exact min_eq_right (by omega)
        rw [e3, e4]
        ring
  · -- sample left of the grid: every access collapses to texel 0
    have e1 : g ⌊val⌋ = g ((0 : Nat) : Int) := by
      rw [hg ⌊val⌋, clampIdx_of_nonpos (by omega)]
    have e2 : g (⌊val⌋ + 1) = g ((0 : Nat) : Int) := by
      rw [hg (⌊val⌋ + 1), clampIdx_of_nonpos (by omega)]
    have hceil : ⌈val⌉ ≤ 0 := le_trans (Int.ceil_le_floor_add_one val) (by omega)
    have e4 : g (min ((n : Int) - 1) ⌈val⌉) = g ((0 : Nat) : Int) := by
      rw [hg (min ((n : Int) - 1) ⌈val⌉),
        clampIdx_of_nonpos (le_trans (min_le_right _ _) hceil)]
    have e3 : max 0 ⌊val⌋ = 0 := max_eq_left (by omega)
    rw [e3, e1, e2, e4]
    push_cast
    ring

theorem clampIdx_lt {n : Nat} (hn : 0 < n) (i : Int) : clampIdx n i < n := by
  unfold clampIdx; omega

/-- 2-D LINEAR filtering with CLAMP_TO_EDGE equals the spec's 1-D formula
nested: a vertical spec step whose samples are horizontal spec steps. -/
theorem texLinear_eq_nestedSpec (d : List ℚ) {dataW dataH : Nat}
    (hW : 0 < dataW) (hH : 0 < dataH) (u v : ℚ) :
    texLinear d dataW dataH u v =
      specSample1 (fun j => specSample1 (fun i => gridGet d dataW dataH i j) dataW u)
        dataH v := by
  have hinner : (fun j : Int => lerpTap (fun i => gridGet d dataW dataH i j) u)
      = fun j : Int => specSample1 (fun i => gridGet d dataW dataH i j) dataW u :=
    funext fun j =>
      lerpTap_eq_specSample1 hW _ (fun i => gridGet_clampX d dataW dataH i j) u
  have houter : lerpTap (fun j => lerpTap (fun i => gridGet d dataW dataH i j) u) v
      = specSample1 (fun j => lerpTap (fun i => gridGet d dataW dataH i j) u) dataH v :=
    lerpTap_eq_specSample1 hH _
      (fun j => congrArg (fun gg => lerpTap gg u)
        (funext fun i => gridGet_clampY d dataW dataH i j)) v
  unfold texLinear
  rw [houter, hinner]

/-- Each (clamped) row access of the spec's intermediate grid is one
horizontal spec step on the original data. -/
theorem specPass1_gridGet {dataW dataH outW : Nat} (d : List ℚ)
    (hH : 0 < dataH) {x : Nat} (hx : x < outW) (j : Int) :
    gridGet (specPass1 d dataW dataH outW) outW dataH (x : Int) j =
      specSample1 (fun i => gridGet d dataW dataH i j) dataW (srcCoord outW dataW x) := by
  have hcy : clampIdx dataH j < dataH := clampIdx_lt hH j
  show (specPass1 d dataW dataH outW).getD
    (clampIdx dataH j * outW + clampIdx outW (x : Int)) 0 = _
  rw [clampIdx_coe hx]
  unfold specPass1
  rw [mkGrid_getD _ hx hcy]
  have hfn : (fun i : Int => gridGet d dataW dataH i ((clampIdx dataH j : Nat) : Int))
      = fun i : Int => gridGet d dataW dataH i j :=
    funext fun i => (gridGet_clampY d dataW dataH i j).symm
  rw [hfn]

theorem list_eq_of_getD {l l' : List ℚ} (hlen : l.length = l'.length)
    (h : ∀ i, i < l.length → l.getD i 0 = l'.getD i 0) : l = l' := by
  apply List.ext_getElem hlen
  intro i h1 h2
  have hi := h i h1
  rwa [List.getD_eq_getElem _ _ h1, List.getD_eq_getElem _ _ h2] at hi

theorem mkGrid_getD_idx {w h : Nat} (f : Nat → Nat → ℚ) {i : Nat}
    (hw : 0 < w) (hi : i < w * h) :
    (mkGrid w h f).getD i 0 = f (i % w) (i / w) := by
  have hx : i % w < w := Nat.mod_lt i hw
  have hy : i / w < h := Nat.div_lt_of_lt_mul hi
  have hidx : i / w * w + i % w = i := by
    rw [Nat.mul_comm]; exact Nat.div_add_mod i w
  conv_lhs => rw [← hidx]
  exact mkGrid_getD f hx hy

theorem srcCoord_self {n : Nat} (hn : 0 < n) (i : Nat) :
    srcCoord n n i = (i : ℚ) := by
  unfold srcCoord
  rw [div_mul_cancel₀ _ (Nat.cast_ne_zero.mpr hn.ne')]
  ring

theorem texLinear_natCast (d : List ℚ) (w h x y : Nat) :
    texLinear d w h ((x : Nat) : ℚ) ((y : Nat) : ℚ) =
      gridGet d w h ((x : Nat) : Int) ((y : Nat) : Int) := by
  simp [texLinear, lerpTap, Int.floor_natCast, Int.cast_natCast]

theorem clampIdx_one (i : Int) : clampIdx 1 i = 0 := by
  unfold clampIdx; omega

/-- C2 (amended core): when the output is at least as large as the input on
both axes — the magnification case, where the configured MAG_FILTER=LINEAR
applies — the GPU resampling stage computes exactly the spec's two-pass
separable bilinear resampler. -/
theorem c2_upscale_refines_spec {dataW dataH outW outH : Nat} (d : List ℚ)
    (hW : 0 < dataW) (hH : 0 < dataH)
    (hup1 : dataW ≤ outW) (hup2 : dataH ≤ outH) :
    resampleGrid d dataW dataH outW outH = specResample d dataW dataH outW outH := by
  unfold resampleGrid specResample specPass2
  apply mkGrid_congr
  intro x y hx hy
  unfold sampleHeatmap
  rw [if_pos ⟨hup1, hup2⟩, texLinear_eq_nestedSpec d hW hH]
  have hrow : (fun j : Int =>
        gridGet (specPass1 d dataW dataH outW) outW dataH (x : Int) j)
      = fun j : Int =>
        specSample1 (fun i => gridGet d dataW dataH i j) dataW (srcCoord outW dataW x) :=
    funext fun j => specPass1_gridGet d hH hx j
  rw [hrow]

/-- C6: resampling a grid to its own dimensions returns the original grid
unchanged (exactly, over ℚ): every pixel-center sample coordinate is the
integer `x` (resp. `y`) itself, so each filtering tap has fraction 0 and
reads the original cell. -/
theorem c6_resample_identity {dataW dataH : Nat} (d : List ℚ)
    (hW : 0 < dataW) (hH : 0 < dataH) (hlen : d.length = dataW * dataH) :
    resampleGrid d dataW dataH dataW dataH = d := by
  have hlen2 : (resampleGrid d dataW dataH dataW dataH).length = d.length := by
    simp [resampleGrid, mkGrid_length, hlen]
  apply list_eq_of_getD hlen2
  intro i hi
  have hi2 : i < dataW * dataH := by
    simpa [resampleGrid, mkGrid_length] using hi
  have hx : i % dataW < dataW := Nat.mod_lt i hW
  have hy : i / dataW < dataH := Nat.div_lt_of_lt_mul hi2
  show (mkGrid dataW dataH
    (fun x y => sampleHeatmap d dataW dataH dataW dataH x y)).getD i 0 = d.getD i 0
  rw [mkGrid_getD_idx _ hW hi2]
  unfold sampleHeatmap
  rw [if_pos ⟨Nat.le_refl dataW, Nat.le_refl dataH⟩,
    srcCoord_self hW, srcCoord_self hH, texLinear_natCast]
  unfold gridGet
  rw [clampIdx_coe hy, clampIdx_coe hx]
  have hidx : i / dataW * dataW + i % dataW = i := by
    rw [Nat.mul_comm]; exact Nat.div_add_mod i dataW
  rw [hidx]

/-- C7: resampling a 1×1 grid to any positive output size produces the
constant grid of the single input value, and more generally every texel
access is index-clamped (CLAMP_TO_EDGE): a sample position outside the grid
reads the boundary texel, never extrapolating or wrapping. -/
theorem c7_resample_clamping :
    (∀ (v : ℚ) (outW outH : Nat), 0 < outW → 0 < outH →
        resampleGrid [v] 1 1 outW outH = List.replicate (outW * outH) v) ∧
      (∀ (d : List ℚ) (w h : Nat) (i j : Int),
        gridGet d w h i j =
          gridGet d w h ((clampIdx w i : Nat) : Int) ((clampIdx h j : Nat) : Int)) := by
  constructor
  · intro v outW outH hW hH
    have hg : ∀ i j : Int, gridGet [v] 1 1 i j = v := by
      intro i j
      unfold gridGet
      rw [clampIdx_one, clampIdx_one]
      rfl
    have hsample : ∀ x y : Nat, sampleHeatmap [v] 1 1 outW outH x y = v := by
      intro x y
      unfold sampleHeatmap
      rw [if_pos ⟨hW, hH⟩]
      unfold texLinear
      have hrow : (fun j : Int =>
          lerpTap (fun i => gridGet [v] 1 1 i j) (srcCoord outW 1 x)) = fun _ : Int => v := by
        funext j
        unfold lerpTap
        simp only [hg]
        ring
      rw [hrow]
      unfold lerpTap
      ring
    rw [List.eq_replicate_iff]
    refine ⟨by rw [show resampleGrid [v] 1 1 outW outH = mkGrid outW outH
      (fun x y => sampleHeatmap [v] 1 1 outW outH x y) from rfl, mkGrid_length], ?_⟩
    intro b hb
    rw [show resampleGrid [v] 1 1 outW outH = mkGrid outW outH
      (fun x y => sampleHeatmap [v] 1 1 outW outH x y) from rfl] at hb
    unfold mkGrid at hb
    rw [List.mem_map] at hb
    obtain ⟨k, _, hbk⟩ := hb
    rw [← hbk]
    exact hsample _ _
  · intro d w h i j
    rw [← gridGet_clampX, ← gridGet_clampY]

theorem toNat_lit0 : Int.toNat 0 = 0 := rfl

theorem toNat_lit1 : Int.toNat 1 = 1 := rfl

theorem toNat_lit2 : Int.toNat 2 = 2 := rfl

/-! ## Claims -/

set_option maxHeartbeats 1000000 in
/-- C1: the claim says the color stage computes
`t = (v - domainMin)/(domainMax - domainMin)`, `idx = round(t·(R-1))`
clamped, and emits `lut[idx]`.  The code does not: the fragment shader
samples the LUT at the raw scalar `val` and `min`/`max` are never read.
At the failing input (LUT = [red, green, blue], `min = 10`, `max = 20`,
`v = 15`) the code emits blue (the LUT coordinate 15 clamps to the right
edge), while the claimed mapping (`t = 0.5`, `idx = 1`) gives green —
contradicting the constructor's own jsdoc that `min` is "the input value for
the leftmost pixel in the lut". -/
theorem c1_colorMapping_ignores_domain :
    renderPixels lut3 1 1 [15] 1 1 = [cBlue] ∧
      specColorMap lut3 10 20 15 = cGreen ∧ cBlue ≠ cGreen := by
  refine ⟨?_, ?_, by norm_num [cBlue, cGreen]⟩
  · norm_num [renderPixels, resampleGrid, mkGrid, sampleHeatmap, texLinear, lerpTap,
      gridGet, srcCoord, lutSample, lut3, clampIdx, cRed, cGreen, cBlue, rgbaZero,
      List.range_succ, toNat_lit0, toNat_lit1, toNat_lit2]
  · norm_num [specColorMap, lut3, clampIdx, cRed, cGreen, cBlue, rgbaZero, round_eq,
      toNat_lit0, toNat_lit1, toNat_lit2]

set_option maxHeartbeats 1000000 in
/-- C2 (counterexample): downscaling a 3×1 grid to 2×1, the GPU path uses
the configured MIN_FILTER=NEAREST and picks single texels, while the spec's
two-pass bilinear reference blends — the resampled grids differ
([0, 20] vs [5/2, 35/2]) and so do the final colored outputs (with
LUT = [red, green, blue] and the reference normalizing over domain [0, 30]:
[red, blue] vs [red, green]).  The claimed equivalence "for upscaling and
downscaling alike" is false. -/
theorem c2_downscale_counterexample :
    resampleGrid [0, 10, 20] 3 1 2 1 ≠ specResample [0, 10, 20] 3 1 2 1 ∧
      renderPixels lut3 2 1 [0, 10, 20] 3 1 ≠
        specRender lut3 0 30 [0, 10, 20] 3 1 2 1 := by
  have h1 : resampleGrid [0, 10, 20] 3 1 2 1 = [0, 20] := by
    norm_num [resampleGrid, mkGrid, sampleHeatmap, texNearest, gridGet, srcCoord, clampIdx,
      List.range_succ, toNat_lit0, toNat_lit1, toNat_lit2]
  have h2 : specResample [0, 10, 20] 3 1 2 1 = [5 / 2, 35 / 2] := by
    norm_num [specResample, specPass1, specPass2, specSample1, mkGrid, gridGet, srcCoord,
      clampIdx, ceil_as_floor, List.range_succ, toNat_lit0, toNat_lit1, toNat_lit2]
  have h3 : renderPixels lut3 2 1 [0, 10, 20] 3 1 = [cRed, cBlue] := by
    norm_num [renderPixels, resampleGrid, mkGrid, sampleHeatmap, texNearest, gridGet,
      srcCoord, lutSample, lut3, clampIdx, cRed, cGreen, cBlue, rgbaZero, List.range_succ,
      toNat_lit0, toNat_lit1, toNat_lit2]
  have h4 : specRender lut3 0 30 [0, 10, 20] 3 1 2 1 = [cRed, cGreen] := by
    norm_num [specRender, specResample, specPass1, specPass2, specSample1, specColorMap,
      mkGrid, gridGet, srcCoord, clampIdx, ceil_as_floor, round_eq, List.range_succ, lut3,
      cRed, cGreen, cBlue, rgbaZero, toNat_lit0, toNat_lit1, toNat_lit2]
  rw [h1, h2, h3, h4]
  constructor
  · norm_num
  · norm_num [cRed, cGreen, cBlue]

/-- C2 (witness): the amended refinement applied at a concrete upscale,
2×1 → 4×1. -/
theorem c2_upscale_refines_spec_witness :
    resampleGrid [0, 10] 2 1 4 1 = specResample [0, 10] 2 1 4 1 :=
  c2_upscale_refines_spec [0, 10] (by decide) (by decide) (by decide) (by decide)

/-- C3: the claim says a LUT image of height ≠ 1 makes construction signal a
`ConfigurationError` and not upload the wrong row.  The code's `lut.onload`
handler checks `console.assert(self.lut.height === 1)` — which only logs —
and then uploads the texture unconditionally: for a height-2 image the
assertion condition is false, yet the texture is uploaded and nothing is
raised.  The code contradicts its own assertion. -/
theorem c3_lut_height_assert_not_fail_fast :
    (lutOnload (constructState 4 4 0 1) 2 lut3).assertionPassed = false ∧
      (lutOnload (constructState 4 4 0 1) 2 lut3).uploadedTexture = true ∧
      (lutOnload (constructState 4 4 0 1) 2 lut3).raisedError = false ∧
      (lutOnload (constructState 4 4 0 1) 2 lut3).state.lutLoaded = true :=
  ⟨rfl, rfl, rfl, rfl⟩

/-- C4 (counterexample): constructing with `domainMin = domainMax = 5`
succeeds — the constructor returns normally instead of raising the claimed
`ConfigurationError`. -/
theorem c4_degenerate_domain_accepted :
    construct 4 4 5 5 = Except.ok (constructState 4 4 5 5) ∧
      (constructState 4 4 5 5).min = (constructState 4 4 5 5).max :=
  ⟨rfl, rfl⟩

/-- C4 (amended): the constructor never raises: it stores `min` and `max`
verbatim with no validation whatsoever, for every input including
`min = max` and `min > max`. -/
theorem c4_construct_never_raises (width height : Nat) (mn mx : ℚ) :
    construct width height mn mx = Except.ok (constructState width height mn mx) :=
  rfl

set_option maxHeartbeats 1000000 in
/-- C5: the claim says any value `v ≤ domainMin` maps to `LUT[0]`.  With
`min = 10`, `max = 20` and `v = 5 ≤ min`, the code emits the LUT's LAST
entry (blue): the shader samples the LUT at the raw coordinate 5, which
CLAMP_TO_EDGE clamps to the right edge — not `LUT[0] = red` as claimed
(saturation is at the fixed coordinates 0 and 1, not at `min`/`max`). -/
theorem c5_saturation_violated_eval :
    (5 : ℚ) ≤ 10 ∧ renderPixels lut3 1 1 [5] 1 1 = [cBlue] ∧
      lut3.getD 0 rgbaZero = cRed ∧ cBlue ≠ cRed := by
  refine ⟨by norm_num, ?_, rfl, by norm_num [cBlue, cRed]⟩
  norm_num [renderPixels, resampleGrid, mkGrid, sampleHeatmap, texLinear, lerpTap,
    gridGet, srcCoord, lutSample, lut3, clampIdx, cRed, cGreen, cBlue, rgbaZero,
    List.range_succ, toNat_lit0, toNat_lit1, toNat_lit2]

/-- C6 (witness): identity resample at a concrete 2×2 grid. -/
theorem c6_resample_identity_witness :
    resampleGrid [1, 2, 3, 4] 2 2 2 2 = [1, 2, 3, 4] :=
  c6_resample_identity [1, 2, 3, 4] (by decide) (by decide) (by decide)

/-- C7 (witness): the 1×1 broadcast at a concrete 2×3 output, and the edge
clamp at concrete out-of-range indices. -/
theorem c7_resample_clamping_witness :
    resampleGrid [(5 : ℚ)] 1 1 2 3 = List.replicate 6 5 ∧
      gridGet [(1 : ℚ), 2] 2 1 (-3) 7 =
        gridGet [(1 : ℚ), 2] 2 1 ((clampIdx 2 (-3) : Nat) : Int)
          ((clampIdx 1 7 : Nat) : Int) :=
  ⟨c7_resample_clamping.1 5 2 3 (by decide) (by decide),
    c7_resample_clamping.2 [1, 2] 2 1 (-3) 7⟩

/-- C8 (counterexample): a `getHeatmap` call does persist mutable state: on
a renderer whose LUT has not loaded it replaces `lut.onload` with a chained
wrapper (the onload chain deepens), and on a loaded renderer it creates a
heatmap texture that stays in the GL context — so the state after the call
differs from the state before it, beyond the LUT and the configuration. -/
theorem c8_state_persists_counterexample :
    getHeatmapStep (constructState 4 4 0 1) ≠ constructState 4 4 0 1 ∧
      getHeatmapStep (lutOnload (constructState 4 4 0 1) 1 lut3).state ≠
        (lutOnload (constructState 4 4 0 1) 1 lut3).state := by
  constructor
  · intro hcontra
    have h := congrArg JeevesState.onloadDepth hcontra
    simp [getHeatmapStep, constructState] at h
  · intro hcontra
    have h := congrArg JeevesState.glTextureCount hcontra
    simp [getHeatmapStep, lutOnload, constructState] at h

/-- C8 (amended): each `getHeatmap` call leaves the configuration
(`min`, `max`, canvas size) and the LUT (texels and loaded flag) unchanged,
but does persist exactly one change: a new GL texture when the LUT is
loaded, or a deeper `lut.onload` chain when it is not. -/
theorem c8_per_call_state_delta (s : JeevesState) :
    (getHeatmapStep s).min = s.min ∧ (getHeatmapStep s).max = s.max ∧
      (getHeatmapStep s).canvasWidth = s.canvasWidth ∧
      (getHeatmapStep s).canvasHeight = s.canvasHeight ∧
      (getHeatmapStep s).lutData = s.lutData ∧
      (getHeatmapStep s).lutLoaded = s.lutLoaded ∧
      (getHeatmapStep s).glTextureCount =
        cond s.lutLoaded (s.glTextureCount + 1) s.glTextureCount ∧
      (getHeatmapStep s).onloadDepth =
        cond s.lutLoaded s.onloadDepth (s.onloadDepth + 1) := by
  cases hs : s.lutLoaded <;> simp [getHeatmapStep, hs]

/-- C9: the promise returned by `getHeatmap` never rejects — the executor's
`reject` is unreachable; the promise is fulfilled synchronously when the LUT
is already loaded, and fulfilled once the load event fires otherwise. -/
theorem c9_promise_never_rejects (s : JeevesState) (loadFired : Bool) :
    promiseAfter s loadFired ≠ Settlement.rejected ∧
      promiseAfter s true = Settlement.fulfilled ∧
      promiseAfter { s with lutLoaded := true } loadFired = Settlement.fulfilled := by
  cases hs : s.lutLoaded <;> cases loadFired <;> simp [promiseAfter, hs]

/-- C10: two renderers constructed with the same dimensions and the same
loaded LUT but arbitrary different `min`/`max` render identical pixels on
identical input: the stored `min`/`max` are never read by any rendering
operation. -/
theorem c10_render_independent_of_min_max (width height : Nat)
    (mn₁ mx₁ mn₂ mx₂ : ℚ) (imgH : Nat) (lutRow : List RGBA)
    (data : List ℚ) (dataW dataH : Nat) :
    ((lutOnload (constructState width height mn₁ mx₁) imgH lutRow).state).render
        data dataW dataH =
      ((lutOnload (constructState width height mn₂ mx₂) imgH lutRow).state).render
        data dataW dataH :=
  rfl

end Jeeves
